import Mathlib

/-!
Verification development for `cache/cache.cc` of the speedb repository.

Part 1 embeds `Cache::ItemOwnerIdAllocator` (Allocate / Free) together with the
thin `Cache::GetNextItemOwnerId` / `Cache::DiscardItemOwnerId` delegations, and
a ghost-instrumented trace semantics used to state the allocator's global
invariants.

Part 2 embeds `Cache::CreateFromString` and `SecondaryCache::CreateFromString`.
The generic option-struct parser (`OptionTypeInfo::ParseStruct`) and the plugin
registry (`LoadSharedObject`) are external collaborators of this code; they
appear as explicit function parameters, universally quantified in the theorems.
The compile-time `ROCKSDB_LITE` profile is a `Bool` parameter.

Machine integers: owner ids are `uint16_t` in the original. They are embedded
as `Nat`; the one increment that can overflow (`next_item_owner_id_++` when the
maximum id has just been handed out) is unobservable, because the code sets
`has_wrapped_around_` in exactly that case and never reads the counter again
while the flag is set.  This is noted where it occurs.
-/

/-- Modelled from the spec: the "unknown" sentinel owner id. Its numeric value
is declared in a header outside the provided sources; the spec requires only
that it is distinct from every granted id. -/
def kUnknownItemId : Nat := 0

/-- Modelled from the spec: the first id the monotone counter hands out. The
header outside the provided sources starts the counter above the sentinel, so
that a successful `Allocate` never returns the sentinel. -/
def kMinOwnerItemId : Nat := 1

/-- State of `Cache::ItemOwnerIdAllocator` (cache/cache.cc).  The two
compile-time constants `kMaxOwnerItemId` and `kMaxFreeItemOwnersIdListSize`
are declared in a header outside the provided sources; they are carried as
fields of the state (never modified by any operation) so that the theorems
hold for every choice of their values.  `free_ids_` models the
`std::deque` with `push_back` / `front` / `pop_front`; the mutex serializes
the operations and has no sequential content. -/
structure ItemOwnerIdAllocator where
  kMaxOwnerItemId : Nat
  kMaxFreeItemOwnersIdListSize : Nat
  free_ids_ : List Nat
  next_item_owner_id_ : Nat
  has_wrapped_around_ : Bool
deriving DecidableEq, Repr

/-- A freshly constructed allocator: empty free list, counter at
`kMinOwnerItemId`, wrap-around flag clear (member initializers of the class,
modelled from the spec since the header is outside the provided sources). -/
def newItemOwnerIdAllocator (maxId maxFree : Nat) : ItemOwnerIdAllocator :=
  { kMaxOwnerItemId := maxId
    kMaxFreeItemOwnersIdListSize := maxFree
    free_ids_ := []
    next_item_owner_id_ := kMinOwnerItemId
    has_wrapped_around_ := false }

/-- `Cache::ItemOwnerIdAllocator::Allocate` (cache/cache.cc lines 131-158).
Returns the allocated id together with the successor state.
`free_ids_.headI` models `free_ids_.front()` (guarded by non-emptiness, as in
the source).  In the branch that hands out `kMaxOwnerItemId`, the C++
`next_item_owner_id_++` wraps modulo the integer width while the embedding
uses `+ 1`; the difference is unobservable because `has_wrapped_around_` is
set in that very branch and the counter is never read again while it is set. -/
def ItemOwnerIdAllocator.Allocate (s : ItemOwnerIdAllocator) :
    Nat × ItemOwnerIdAllocator :=
  if s.free_ids_.isEmpty = false then
    (s.free_ids_.headI, { s with free_ids_ := s.free_ids_.tail })
  else if s.has_wrapped_around_ then
    (kUnknownItemId, s)
  else
    let allocated_id := s.next_item_owner_id_
    let s' := { s with next_item_owner_id_ := s.next_item_owner_id_ + 1 }
    if allocated_id = s.kMaxOwnerItemId then
      (allocated_id, { s' with has_wrapped_around_ := true })
    else
      (allocated_id, s')

/-- `Cache::ItemOwnerIdAllocator::Free` (cache/cache.cc lines 160-170).
The C++ signature is `void Free(ItemOwnerId* id)`; the embedding returns the
value stored through the pointer on exit together with the successor state. -/
def ItemOwnerIdAllocator.Free (id : Nat) (s : ItemOwnerIdAllocator) :
    Nat × ItemOwnerIdAllocator :=
  if id ≠ kUnknownItemId then
    let s' :=
      if s.free_ids_.length < s.kMaxFreeItemOwnersIdListSize then
        { s with free_ids_ := s.free_ids_ ++ [id] }
      else
        s
    (kUnknownItemId, s')
  else
    (id, s)

/-- `Cache::GetNextItemOwnerId` (cache/cache.cc lines 172-174): delegation to
the allocator. -/
def Cache.GetNextItemOwnerId (s : ItemOwnerIdAllocator) :
    Nat × ItemOwnerIdAllocator :=
  s.Allocate

/-- `Cache::DiscardItemOwnerId` (cache/cache.cc lines 176-178): delegation to
the allocator's `Free`. -/
def Cache.DiscardItemOwnerId (id : Nat) (s : ItemOwnerIdAllocator) :
    Nat × ItemOwnerIdAllocator :=
  ItemOwnerIdAllocator.Free id s

/-- Iterated allocation, discarding the returned ids: the state after `n`
further `Allocate` calls. -/
def allocRepeat : Nat → ItemOwnerIdAllocator → ItemOwnerIdAllocator
  | 0, s => s
  | n + 1, s => allocRepeat n (s.Allocate).2

/-- A client-visible call on the allocator: an `Allocate`, or a `Free` of a
given id. -/
inductive AllocOp where
  | alloc
  | free (id : Nat)
deriving DecidableEq, Repr

/-- Allocator state instrumented with ghost data for stating trace-level
invariants: `live` is the set of ids handed out by a successful `Allocate` and
not freed since (most recent first); `freedQueue` lists the ids that were freed,
retained on the free list, and not yet handed out again, in the order in which
they were freed (oldest first). -/
structure AllocTrace where
  alloc : ItemOwnerIdAllocator
  live : List Nat
  freedQueue : List Nat
deriving DecidableEq, Repr

/-- The instrumented state of a fresh allocator. -/
def initAllocTrace (maxId maxFree : Nat) : AllocTrace :=
  { alloc := newItemOwnerIdAllocator maxId maxFree
    live := []
    freedQueue := [] }

/-- One client call, with the ghost data updated accordingly: a successful
`Allocate` makes its id live and removes it from the freed-and-retained queue;
`Free id` removes the id from the live set and appends it to the queue exactly
when the allocator retains it (free list below its bound). -/
def allocStep (g : AllocTrace) : AllocOp → AllocTrace
  | AllocOp.alloc =>
    let r := g.alloc.Allocate
    if r.1 = kUnknownItemId then
      { g with alloc := r.2 }
    else
      { alloc := r.2
        live := r.1 :: g.live
        freedQueue := g.freedQueue.erase r.1 }
  | AllocOp.free id =>
    { alloc := (ItemOwnerIdAllocator.Free id g.alloc).2
      live := g.live.erase id
      freedQueue :=
        if g.alloc.free_ids_.length < g.alloc.kMaxFreeItemOwnersIdListSize then
          g.freedQueue ++ [id]
        else
          g.freedQueue }

/-- Run a sequence of client calls. -/
def allocRun (g : AllocTrace) : List AllocOp → AllocTrace
  | [] => g
  | op :: ops => allocRun (allocStep g op) ops

/-- Well-formed call sequences: every `Free` targets an id that is live at that
point (each id is freed at most once while live, and only ids actually handed
out are freed). -/
def ValidOps (g : AllocTrace) : List AllocOp → Bool
  | [] => true
  | AllocOp.alloc :: ops => ValidOps (allocStep g AllocOp.alloc) ops
  | AllocOp.free id :: ops =>
      decide (id ∈ g.live) && ValidOps (allocStep g (AllocOp.free id)) ops

/-- The allocator's state invariant, relative to the ghost data: live ids and
free-list entries lie strictly below the counter and above the sentinel, the
free list is disjoint from the live set and duplicate-free, and the
freed-and-retained queue coincides with the free list. -/
def AllocInv (g : AllocTrace) : Prop :=
  kMinOwnerItemId ≤ g.alloc.next_item_owner_id_ ∧
  (∀ id ∈ g.live, kMinOwnerItemId ≤ id ∧ id < g.alloc.next_item_owner_id_) ∧
  (∀ id ∈ g.alloc.free_ids_,
      kMinOwnerItemId ≤ id ∧ id < g.alloc.next_item_owner_id_ ∧ id ∉ g.live) ∧
  g.live.Nodup ∧ g.alloc.free_ids_.Nodup ∧ g.freedQueue = g.alloc.free_ids_

/-- What the next `Allocate` may return after a trace: never an id that is
live (allocated and not since freed); and an id that sits on the
freed-and-retained queue only if it is the queue's front, i.e. only once every
id freed earlier and still retained has been handed out. -/
def AllocSafe (g : AllocTrace) : Prop :=
  (g.alloc.Allocate).1 ∉ g.live ∧
  ((g.alloc.Allocate).1 ∈ g.freedQueue →
    g.freedQueue.head? = some (g.alloc.Allocate).1)

/-- The concrete scenario of spec §8 (scenario B): from a fresh allocator,
three `Allocate` calls return 1, 2, 3; `Free` of the middle id followed by a
fourth `Allocate` returns that freed id, leaving the counter where it was. -/
def freshTripleAllocScenario (maxId maxFree : Nat) : Prop :=
  let s0 := newItemOwnerIdAllocator maxId maxFree
  let r1 := s0.Allocate
  let r2 := r1.2.Allocate
  let r3 := r2.2.Allocate
  let rf := ItemOwnerIdAllocator.Free r2.1 r3.2
  let r4 := rf.2.Allocate
  r1.1 = 1 ∧ r2.1 = 2 ∧ r3.1 = 3 ∧
  r1.1 < r2.1 ∧ r2.1 < r3.1 ∧
  r4.1 = r2.1 ∧
  r4.2.next_item_owner_id_ = r3.2.next_item_owner_id_

/-! ### Part 2: construction from configuration strings -/

/-- The status values produced along the paths of `Cache::CreateFromString`
and `SecondaryCache::CreateFromString`.  `Status::NotSupported(msg1, msg2)`
carries its two message arguments.  The external parse / plugin collaborators
may return any of these. -/
inductive Status where
  | ok
  | notSupported (msg1 msg2 : String)
  | invalidArgument (msg1 msg2 : String)
  | ioError (msg1 msg2 : String)
deriving DecidableEq, Repr

/-- The `OptionType` tags used by the two option maps in cache/cache.cc. -/
inductive OptionType where
  | kSizeT
  | kInt
  | kBoolean
  | kDouble
  | kCompressionType
  | kUInt32T
deriving DecidableEq, Repr

/-- `lru_cache_options_type_info` (cache/cache.cc lines 20-40): the option set
of the primary cache, as field-name / option-type pairs.  The C++ container is
an unordered map; the list order is immaterial. -/
def lru_cache_options_type_info : List (String × OptionType) :=
  [("capacity", OptionType.kSizeT),
   ("num_shard_bits", OptionType.kInt),
   ("strict_capacity_limit", OptionType.kBoolean),
   ("high_pri_pool_ratio", OptionType.kDouble),
   ("low_pri_pool_ratio", OptionType.kDouble)]

/-- `comp_sec_cache_options_type_info` (cache/cache.cc lines 42-66): the option
set of the compressed secondary cache. -/
def comp_sec_cache_options_type_info : List (String × OptionType) :=
  [("capacity", OptionType.kSizeT),
   ("num_shard_bits", OptionType.kInt),
   ("compression_type", OptionType.kCompressionType),
   ("compress_format_version", OptionType.kUInt32T),
   ("enable_custom_split_merge", OptionType.kBoolean)]

/-- The compression-type enum, an opaque tag here (the codec itself is an
external collaborator). -/
inductive CompressionType where
  | kNoCompression
  | kSnappyCompression
  | kZSTD
deriving DecidableEq, Repr

/-- `LRUCacheOptions`: the typed option struct the primary-cache parse fills.
The pool ratios are C++ doubles used only as opaque configuration values; they
are embedded as rationals. -/
structure LRUCacheOptions where
  capacity : Nat
  num_shard_bits : Int
  strict_capacity_limit : Bool
  high_pri_pool_ratio : Rat
  low_pri_pool_ratio : Rat
deriving DecidableEq, Repr

/-- `CompressedSecondaryCacheOptions`: the typed option struct the
secondary-cache parse fills (fields as listed in
`comp_sec_cache_options_type_info`). -/
structure CompressedSecondaryCacheOptions where
  capacity : Nat
  num_shard_bits : Int
  compression_type : CompressionType
  compress_format_version : Nat
  enable_custom_split_merge : Bool
deriving DecidableEq, Repr

/-- Modelled from the spec: the default-shaped primary-cache options for the
capacity-only construction path — default shard-bit count, default pool
ratios, strict-limit default.  The concrete default values live in headers
outside the provided sources; only their identity matters to the claims. -/
def defaultLRUCacheOptions (capacity : Nat) : LRUCacheOptions :=
  { capacity := capacity
    num_shard_bits := -1
    strict_capacity_limit := false
    high_pri_pool_ratio := 1 / 2
    low_pri_pool_ratio := 0 }

/-- A constructed primary cache, characterized by the option set it was built
from. -/
structure LRUCache where
  opts : LRUCacheOptions
deriving DecidableEq, Repr

/-- A constructed secondary cache: the compressed variant built from its
options, or an object produced by the external plugin registry. -/
inductive SecondaryCache where
  | compressed (opts : CompressedSecondaryCacheOptions)
  | plugin (name : String)
deriving DecidableEq, Repr

/-- `value.contains c` on the character list of the string (strings are
handled through their character lists throughout, so that every definition
evaluates by kernel reduction). -/
def strContainsChar (value : String) (c : Char) : Bool :=
  value.data.contains c

/-- `value.find(tok) == 0`, i.e. `value` starts with `tok`. -/
def strStartsWith (value tok : String) : Bool :=
  tok.data.isPrefixOf value.data

/-- `value.erase(0, n)`: the string with its first `n` characters removed. -/
def strDrop (value : String) (n : Nat) : String :=
  String.mk (value.data.drop n)

/-- Modelled from the spec: `ParseSizeT` (util/string_util, outside the
provided sources) reads the configuration string as a plain byte-size
capacity; the embedding covers the plain decimal form (digit values
accumulated in base 10; `48` is the code of the digit zero). -/
def ParseSizeT (value : String) : Nat :=
  value.data.foldl (fun n c => n * 10 + (c.toNat - 48)) 0

/-- Modelled from the spec: `NewLRUCache(const LRUCacheOptions&)`
(lru_cache.cc, outside the provided sources) constructs the sharded cache
described by the options. -/
def NewLRUCache (opts : LRUCacheOptions) : LRUCache :=
  { opts := opts }

/-- Modelled from the spec: the capacity-only `NewLRUCache(size_t)` overload
fills every other option with its default. -/
def NewLRUCacheWithCapacity (capacity : Nat) : LRUCache :=
  NewLRUCache (defaultLRUCacheOptions capacity)

/-- Modelled from the spec: `NewCompressedSecondaryCache`
(compressed_secondary_cache.cc, outside the provided sources) constructs the
compressed secondary-cache variant from its options. -/
def NewCompressedSecondaryCache (opts : CompressedSecondaryCacheOptions) :
    SecondaryCache :=
  SecondaryCache.compressed opts

/-- The scheme token recognized by `SecondaryCache::CreateFromString`. -/
def compressedSecondaryCacheScheme : String := "compressed_secondary_cache://"

/-- `SecondaryCache::CreateFromString` (cache/cache.cc lines 69-101).
`lite` models the compile-time `ROCKSDB_LITE` profile; `ParseStruct` models
the external `OptionTypeInfo::ParseStruct` collaborator (applied to the option
map and the argument string); `LoadSharedObject` models the external plugin
registry.  `result` is the value of the output parameter on entry; the
returned pair is the status and the output parameter's value on exit
(`result->swap(sec_cache)` runs only on `ok`).  The C++ test
`value.find("compressed_secondary_cache://") == 0` holds exactly when `value`
starts with the scheme token, since `find` returns the lowest match position;
`args.erase(0, strlen(token))` leaves the remainder after the token. -/
def SecondaryCache.CreateFromString
    (lite : Bool)
    (ParseStruct : List (String × OptionType) → String →
      Status × CompressedSecondaryCacheOptions)
    (LoadSharedObject : String → Option SecondaryCache →
      Status × Option SecondaryCache)
    (value : String) (result : Option SecondaryCache) :
    Status × Option SecondaryCache :=
  if strStartsWith value compressedSecondaryCacheScheme then
    let args := strDrop value compressedSecondaryCacheScheme.length
    if lite then
      (Status.notSupported "Cannot load compressed secondary cache in LITE mode "
        args, result)
    else
      let parsed := ParseStruct comp_sec_cache_options_type_info args
      if parsed.1 = Status.ok then
        (parsed.1, some (NewCompressedSecondaryCache parsed.2))
      else
        (parsed.1, result)
  else
    LoadSharedObject value result

/-- `Cache::CreateFromString` (cache/cache.cc lines 103-128).  Parameters as
in `SecondaryCache.CreateFromString`.  The C++ test
`value.find('=') == std::string::npos` holds exactly when `value` contains no
`'='` character. -/
def Cache.CreateFromString
    (lite : Bool)
    (ParseStruct : List (String × OptionType) → String →
      Status × LRUCacheOptions)
    (value : String) (result : Option LRUCache) :
    Status × Option LRUCache :=
  let built : Status × Option LRUCache :=
    if strContainsChar value '=' = false then
      (Status.ok, some (NewLRUCacheWithCapacity (ParseSizeT value)))
    else if lite then
      (Status.notSupported "Cannot load cache in LITE mode " value, none)
    else
      let parsed := ParseStruct lru_cache_options_type_info value
      if parsed.1 = Status.ok then
        (parsed.1, some (NewLRUCache parsed.2))
      else
        (parsed.1, none)
  if built.1 = Status.ok then
    (built.1, built.2)
  else
    (built.1, result)

/-- Sample secondary-cache options, used to instantiate the universally
quantified collaborators at concrete inputs. -/
def sampleSecOpts : CompressedSecondaryCacheOptions :=
  { capacity := 1024
    num_shard_bits := 2
    compression_type := CompressionType.kNoCompression
    compress_format_version := 2
    enable_custom_split_merge := false }

/-- A stand-in external parse that always succeeds with fixed options. -/
def constLRUParse (opts : LRUCacheOptions) :
    List (String × OptionType) → String → Status × LRUCacheOptions :=
  fun _ _ => (Status.ok, opts)

/-- A stand-in external parse that always fails with `InvalidArgument`. -/
def failLRUParse :
    List (String × OptionType) → String → Status × LRUCacheOptions :=
  fun _ value => (Status.invalidArgument "bad option" value,
    defaultLRUCacheOptions 0)

/-- A stand-in external secondary parse that always succeeds. -/
def constSecParse (opts : CompressedSecondaryCacheOptions) :
    List (String × OptionType) → String →
      Status × CompressedSecondaryCacheOptions :=
  fun _ _ => (Status.ok, opts)

/-- A stand-in external secondary parse that always fails. -/
def failSecParse :
    List (String × OptionType) → String →
      Status × CompressedSecondaryCacheOptions :=
  fun _ value => (Status.invalidArgument "bad option" value, sampleSecOpts)

/-- A stand-in plugin registry that resolves every name. -/
def namedPluginLoader :
    String → Option SecondaryCache → Status × Option SecondaryCache :=
  fun value _ => (Status.ok, some (SecondaryCache.plugin value))

/-- A stand-in plugin registry that fails every name, leaving the output
parameter untouched. -/
def failingPluginLoader :
    String → Option SecondaryCache → Status × Option SecondaryCache :=
  fun value result => (Status.invalidArgument "not found" value, result)

/-! ### Helper lemmas on the allocator -/

theorem allocate_free_cons (s : ItemOwnerIdAllocator) (a : Nat) (t : List Nat)
    (h : s.free_ids_ = a :: t) :
    s.Allocate = (a, { s with free_ids_ := t }) := by
  simp [ItemOwnerIdAllocator.Allocate, h]

theorem allocate_empty_wrapped (s : ItemOwnerIdAllocator)
    (h : s.free_ids_ = []) (hw : s.has_wrapped_around_ = true) :
    s.Allocate = (kUnknownItemId, s) := by
  simp [ItemOwnerIdAllocator.Allocate, h, hw]

theorem allocate_empty_counter (s : ItemOwnerIdAllocator)
    (h : s.free_ids_ = []) (hw : s.has_wrapped_around_ = false) :
    (s.Allocate).1 = s.next_item_owner_id_ ∧
    (s.Allocate).2.free_ids_ = [] ∧
    (s.Allocate).2.next_item_owner_id_ = s.next_item_owner_id_ + 1 := by
  by_cases hm : s.next_item_owner_id_ = s.kMaxOwnerItemId <;>
    simp [ItemOwnerIdAllocator.Allocate, h, hw, hm]

theorem free_not_sentinel (s : ItemOwnerIdAllocator) (id : Nat)
    (h : id ≠ kUnknownItemId) :
    ItemOwnerIdAllocator.Free id s =
      (kUnknownItemId,
        if s.free_ids_.length < s.kMaxFreeItemOwnersIdListSize then
          { s with free_ids_ := s.free_ids_ ++ [id] }
        else
          s) := by
  simp [ItemOwnerIdAllocator.Free, h]

theorem allocInv_init (maxId maxFree : Nat) :
    AllocInv (initAllocTrace maxId maxFree) := by
  simp [AllocInv, initAllocTrace, newItemOwnerIdAllocator, kMinOwnerItemId]

theorem allocInv_step (g : AllocTrace) (op : AllocOp)
    (hv : ∀ id, op = AllocOp.free id → id ∈ g.live)
    (hinv : AllocInv g) : AllocInv (allocStep g op) := by
  obtain ⟨hmin, hlive, hfree, hndl, hndf, hfq⟩ := hinv
  cases op with
  | alloc =>
    rcases hfl : g.alloc.free_ids_ with _ | ⟨a, t⟩
    · by_cases hw : g.alloc.has_wrapped_around_
      · have he := allocate_empty_wrapped g.alloc hfl hw
        simp only [allocStep, he]
        exact ⟨hmin, hlive, hfree, hndl, hndf, hfq⟩
      · obtain ⟨e1, e2, e3⟩ :=
          allocate_empty_counter g.alloc hfl (by simpa using hw)
        have hne : (g.alloc.Allocate).1 ≠ kUnknownItemId := by
          rw [e1]
          simp only [kUnknownItemId, kMinOwnerItemId] at hmin ⊢
          omega
        simp only [allocStep, if_neg hne]
        refine ⟨?_, ?_, ?_, ?_, ?_, ?_⟩
        · simp only [e3]
          omega
        · intro id hid
          simp only [List.mem_cons] at hid
          rcases hid with rfl | hid
          · rw [e1, e3]
            exact ⟨hmin, by omega⟩
          · have := hlive id hid
            rw [e3]
            exact ⟨this.1, by omega⟩
        · intro id hid
          rw [e2] at hid
          simp at hid
        · refine List.nodup_cons.mpr ⟨?_, hndl⟩
          rw [e1]
          intro hmem
          have := (hlive _ hmem).2
          omega
        · rw [e2]
          exact List.nodup_nil
        · rw [e2, hfq, hfl]
          simp
    · have he := allocate_free_cons g.alloc a t hfl
      have ha := hfree a (by rw [hfl]; exact List.mem_cons_self a t)
      have hne : a ≠ kUnknownItemId := by
        simp only [kUnknownItemId, kMinOwnerItemId] at ha ⊢
        omega
      simp only [allocStep, he, if_neg hne]
      refine ⟨hmin, ?_, ?_, ?_, ?_, ?_⟩
      · intro id hid
        simp only [List.mem_cons] at hid
        rcases hid with rfl | hid
        · exact ⟨ha.1, ha.2.1⟩
        · exact hlive id hid
      · intro id hid
        have hid' : id ∈ g.alloc.free_ids_ := by
          rw [hfl]
          exact List.mem_cons_of_mem a hid
        have := hfree id hid'
        refine ⟨this.1, this.2.1, ?_⟩
        intro hmem
        simp only [List.mem_cons] at hmem
        rcases hmem with rfl | hmem
        · have : g.alloc.free_ids_.Nodup := hndf
          rw [hfl] at this
          exact (List.nodup_cons.mp this).1 hid
        · exact this.2.2 hmem
      · refine List.nodup_cons.mpr ⟨ha.2.2, hndl⟩
      · have : g.alloc.free_ids_.Nodup := hndf
        rw [hfl] at this
        exact (List.nodup_cons.mp this).2
      · rw [hfq, hfl]
        simp [List.erase_cons_head]
  | free id =>
    have hmem : id ∈ g.live := hv id rfl
    have hid := hlive id hmem
    have hne : id ≠ kUnknownItemId := by
      simp only [kUnknownItemId, kMinOwnerItemId] at hid ⊢
      omega
    have hnotfree : id ∉ g.alloc.free_ids_ := by
      intro hmemf
      exact (hfree id hmemf).2.2 hmem
    have he := free_not_sentinel g.alloc id hne
    by_cases hlen :
        g.alloc.free_ids_.length < g.alloc.kMaxFreeItemOwnersIdListSize
    · simp only [allocStep, he, if_pos hlen]
      refine ⟨hmin, ?_, ?_, hndl.erase id, ?_, ?_⟩
      · intro x hx
        exact hlive x (List.mem_of_mem_erase hx)
      · intro x hx
        simp only [List.mem_append, List.mem_singleton] at hx
        rcases hx with hx | rfl
        · have := hfree x hx
          refine ⟨this.1, this.2.1, ?_⟩
          intro hmem'
          exact this.2.2 (List.mem_of_mem_erase hmem')
        · refine ⟨hid.1, hid.2, ?_⟩
          intro hmem'
          rcases (hndl.mem_erase_iff.mp hmem') with ⟨hx1, _⟩
          exact hx1 rfl
      · exact (List.nodup_append).mpr
          ⟨hndf, List.nodup_singleton id, by
            intro x hx hx'
            simp only [List.mem_singleton] at hx'
            subst hx'
            exact hnotfree hx⟩
      · rw [hfq]
    · simp only [allocStep, he, if_neg hlen]
      refine ⟨hmin, ?_, ?_, hndl.erase id, hndf, hfq⟩
      · intro x hx
        exact hlive x (List.mem_of_mem_erase hx)
      · intro x hx
        have := hfree x hx
        refine ⟨this.1, this.2.1, ?_⟩
        intro hmem'
        exact this.2.2 (List.mem_of_mem_erase hmem')

theorem allocInv_run (ops : List AllocOp) (g : AllocTrace)
    (hv : ValidOps g ops = true) (hinv : AllocInv g) :
    AllocInv (allocRun g ops) := by
  induction ops generalizing g with
  | nil => simpa [allocRun] using hinv
  | cons op ops ih =>
    cases op with
    | alloc =>
      simp only [ValidOps] at hv
      exact ih _ hv (allocInv_step g AllocOp.alloc (by intro id h; cases h) hinv)
    | free id =>
      simp only [ValidOps, Bool.and_eq_true, decide_eq_true_eq] at hv
      obtain ⟨hmem, hv'⟩ := hv
      refine ih _ hv' (allocInv_step g (AllocOp.free id) ?_ hinv)
      intro j hj
      injection hj with h
      exact h ▸ hmem

theorem allocSafe_of_inv (g : AllocTrace) (hinv : AllocInv g) : AllocSafe g := by
  obtain ⟨hmin, hlive, hfree, hndl, hndf, hfq⟩ := hinv
  rcases hfl : g.alloc.free_ids_ with _ | ⟨a, t⟩
  · by_cases hw : g.alloc.has_wrapped_around_
    · have he := allocate_empty_wrapped g.alloc hfl hw
      constructor
      · rw [he]
        intro hmem
        have := (hlive _ hmem).1
        simp only [kUnknownItemId, kMinOwnerItemId] at this
        omega
      · intro hmem
        rw [hfq, hfl] at hmem
        simp at hmem
    · obtain ⟨e1, _, _⟩ := allocate_empty_counter g.alloc hfl (by simpa using hw)
      constructor
      · rw [e1]
        intro hmem
        have := (hlive _ hmem).2
        omega
      · intro hmem
        rw [hfq, hfl] at hmem
        simp at hmem
  · have he := allocate_free_cons g.alloc a t hfl
    have ha := hfree a (by rw [hfl]; exact List.mem_cons_self a t)
    constructor
    · rw [he]
      exact ha.2.2
    · intro _
      rw [hfq, hfl, he]
      rfl

/-! ### Claim theorems: the allocator -/

/-- Claim C1: over every well-formed call sequence (each `Free` targets a live
id), `Allocate` never returns an id that was previously allocated and has not
since been freed; and after `Free(id)`, a later `Allocate` returns `id` only
once every id freed earlier and still retained on the free list has been
handed out first (the returned id is always the front of the
freed-and-retained queue). -/
theorem allocate_safe_for_valid_traces (maxId maxFree : Nat)
    (ops : List AllocOp)
    (hv : ValidOps (initAllocTrace maxId maxFree) ops = true) :
    AllocSafe (allocRun (initAllocTrace maxId maxFree) ops) :=
  allocSafe_of_inv _ (allocInv_run ops _ hv (allocInv_init maxId maxFree))

/-- Witness for C1 at a concrete trace. -/
theorem allocate_safe_for_valid_traces_instance :
    ValidOps (initAllocTrace 100 10)
      [AllocOp.alloc, AllocOp.alloc, AllocOp.free 1, AllocOp.alloc] = true ∧
    AllocSafe (allocRun (initAllocTrace 100 10)
      [AllocOp.alloc, AllocOp.alloc, AllocOp.free 1, AllocOp.alloc]) :=
  ⟨by decide, allocate_safe_for_valid_traces 100 10 _ (by decide)⟩

/-- Claim C2: from a fresh allocator with no prior frees, three `Allocate`
calls return the strictly increasing distinct ids 1, 2, 3; after `Free` of the
middle id, a fourth `Allocate` returns that freed id, and the counter is not
advanced by it. -/
theorem fresh_allocator_triple_alloc_scenario (maxId maxFree : Nat)
    (hmax : 3 ≤ maxId) (hfree : 1 ≤ maxFree) :
    freshTripleAllocScenario maxId maxFree := by
  have hf : 0 < maxFree := hfree
  have h1 : ¬ (1 = maxId) := by omega
  have h2 : ¬ (2 = maxId) := by omega
  by_cases h3 : 3 = maxId
  · simp [freshTripleAllocScenario, newItemOwnerIdAllocator, kMinOwnerItemId,
      ItemOwnerIdAllocator.Allocate, ItemOwnerIdAllocator.Free, kUnknownItemId,
      h1, h2, h3, hf]
    omega
  · simp [freshTripleAllocScenario, newItemOwnerIdAllocator, kMinOwnerItemId,
      ItemOwnerIdAllocator.Allocate, ItemOwnerIdAllocator.Free, kUnknownItemId,
      h1, h2, h3, hf]

/-- Witness for C2 at the concrete header constants. -/
theorem fresh_allocator_triple_alloc_scenario_instance :
    (3 ≤ 65535 ∧ 1 ≤ 10000) ∧ freshTripleAllocScenario 65535 10000 :=
  ⟨by decide,
   fresh_allocator_triple_alloc_scenario 65535 10000 (by decide) (by decide)⟩

/-- Claim C3: with a non-empty free list, `Allocate` pops and returns the
front entry and changes nothing else (in particular the counter does not
advance); the counter advances only from a state whose free list is empty. -/
theorem allocate_pops_free_list_front (s : ItemOwnerIdAllocator) :
    (∀ a t, s.free_ids_ = a :: t →
      s.Allocate = (a, { s with free_ids_ := t })) ∧
    ((s.Allocate).2.next_item_owner_id_ ≠ s.next_item_owner_id_ →
      s.free_ids_ = []) := by
  constructor
  · intro a t h
    exact allocate_free_cons s a t h
  · intro hne
    rcases h : s.free_ids_ with _ | ⟨a, t⟩
    · rfl
    · exfalso
      apply hne
      rw [allocate_free_cons s a t h]

/-- Witness for C3 at a concrete state. -/
theorem allocate_pops_free_list_front_instance :
    (ItemOwnerIdAllocator.Allocate ⟨100, 10, [7, 3], 9, false⟩
      = (7, ⟨100, 10, [3], 9, false⟩)) ∧
    (⟨100, 10, [], 9, false⟩ : ItemOwnerIdAllocator).free_ids_ = [] :=
  ⟨(allocate_pops_free_list_front ⟨100, 10, [7, 3], 9, false⟩).1 7 [3] rfl,
   (allocate_pops_free_list_front ⟨100, 10, [], 9, false⟩).2 (by decide)⟩

/-- Claim C4: once the counter is exhausted (the wrap-around flag is set after
the maximum id was handed out) and the free list is empty, `Allocate` returns
the "unknown" sentinel — the failure the spec labels `ResourceExhausted` —
and leaves the state unchanged, so every subsequent `Allocate` fails the same
way until some `Free` occurs. -/
theorem allocate_fails_after_exhaustion (s : ItemOwnerIdAllocator)
    (h1 : s.has_wrapped_around_ = true) (h2 : s.free_ids_ = []) :
    s.Allocate = (kUnknownItemId, s) ∧
    ∀ n, allocRepeat n s = s ∧
      ((allocRepeat n s).Allocate).1 = kUnknownItemId := by
  have hstep := allocate_empty_wrapped s h2 h1
  refine ⟨hstep, ?_⟩
  intro n
  induction n with
  | zero => exact ⟨rfl, by simp [allocRepeat, hstep]⟩
  | succ n ih =>
    have hrep : allocRepeat (n + 1) s = allocRepeat n s := by
      simp only [allocRepeat, hstep]
    rw [hrep]
    exact ih

/-- Witness for C4 at a concrete exhausted state. -/
theorem allocate_fails_after_exhaustion_instance :
    (ItemOwnerIdAllocator.Allocate ⟨5, 3, [], 6, true⟩
      = (kUnknownItemId, ⟨5, 3, [], 6, true⟩)) ∧
    allocRepeat 4 ⟨5, 3, [], 6, true⟩ = ⟨5, 3, [], 6, true⟩ :=
  ⟨(allocate_fails_after_exhaustion ⟨5, 3, [], 6, true⟩ rfl rfl).1,
   ((allocate_fails_after_exhaustion ⟨5, 3, [], 6, true⟩ rfl rfl).2 4).1⟩

/-- Claim C5: `Free` of the "unknown" sentinel is a no-op; a non-sentinel id
is appended to the free list exactly when the list is below its configured
maximum size, and is silently discarded (the state is unchanged) when the
list is full. -/
theorem free_enqueues_or_discards (id : Nat) (s : ItemOwnerIdAllocator) :
    (id = kUnknownItemId → ItemOwnerIdAllocator.Free id s = (id, s)) ∧
    (id ≠ kUnknownItemId →
      s.free_ids_.length < s.kMaxFreeItemOwnersIdListSize →
      (ItemOwnerIdAllocator.Free id s).2 =
        { s with free_ids_ := s.free_ids_ ++ [id] }) ∧
    (id ≠ kUnknownItemId →
      ¬ s.free_ids_.length < s.kMaxFreeItemOwnersIdListSize →
      (ItemOwnerIdAllocator.Free id s).2 = s) := by
  refine ⟨?_, ?_, ?_⟩
  · intro h
    simp [ItemOwnerIdAllocator.Free, h]
  · intro h hlen
    simp [ItemOwnerIdAllocator.Free, h, hlen]
  · intro h hlen
    simp [ItemOwnerIdAllocator.Free, h, hlen]

/-- Witness for C5: the sentinel no-op, an append below the bound, and a
discard at the bound. -/
theorem free_enqueues_or_discards_instance :
    (ItemOwnerIdAllocator.Free kUnknownItemId ⟨100, 2, [4], 9, false⟩
      = (kUnknownItemId, ⟨100, 2, [4], 9, false⟩)) ∧
    ((ItemOwnerIdAllocator.Free 7 ⟨100, 2, [4], 9, false⟩).2
      = ⟨100, 2, [4, 7], 9, false⟩) ∧
    ((ItemOwnerIdAllocator.Free 7 ⟨100, 2, [4, 5], 9, false⟩).2
      = ⟨100, 2, [4, 5], 9, false⟩) :=
  ⟨(free_enqueues_or_discards kUnknownItemId ⟨100, 2, [4], 9, false⟩).1 rfl,
   (free_enqueues_or_discards 7 ⟨100, 2, [4], 9, false⟩).2.1
     (by decide) (by decide),
   (free_enqueues_or_discards 7 ⟨100, 2, [4, 5], 9, false⟩).2.2
     (by decide) (by decide)⟩

/-- Claim C6: `Cache::DiscardItemOwnerId` (delegating to `Free(&id)`)
overwrites the caller's variable with the "unknown" sentinel whenever the
incoming id is not the sentinel — also when the free list is full and the id
itself is discarded — and leaves both the variable and the allocator state
unchanged when the incoming id is the sentinel. -/
theorem discard_overwrites_with_sentinel (id : Nat) (s : ItemOwnerIdAllocator) :
    (id ≠ kUnknownItemId →
      (Cache.DiscardItemOwnerId id s).1 = kUnknownItemId) ∧
    (id = kUnknownItemId → Cache.DiscardItemOwnerId id s = (id, s)) := by
  constructor
  · intro h
    simp [Cache.DiscardItemOwnerId, ItemOwnerIdAllocator.Free, h]
  · intro h
    simp [Cache.DiscardItemOwnerId, ItemOwnerIdAllocator.Free, h]

/-- Witness for C6: overwrite on a full free list, no-op on the sentinel. -/
theorem discard_overwrites_with_sentinel_instance :
    ((Cache.DiscardItemOwnerId 7 ⟨100, 2, [4, 5], 9, false⟩).1
      = kUnknownItemId) ∧
    (Cache.DiscardItemOwnerId kUnknownItemId ⟨100, 2, [4, 5], 9, false⟩
      = (kUnknownItemId, ⟨100, 2, [4, 5], 9, false⟩)) :=
  ⟨(discard_overwrites_with_sentinel 7 ⟨100, 2, [4, 5], 9, false⟩).1
     (by decide),
   (discard_overwrites_with_sentinel kUnknownItemId
     ⟨100, 2, [4, 5], 9, false⟩).2 rfl⟩

/-! ### Claim theorems: construction from configuration strings -/

/-- Claim C7: a configuration string without `'='` is parsed as a plain
byte-size capacity and yields a default-shaped primary cache with that
capacity, whatever the build profile and the external parse collaborator do. -/
theorem create_cache_plain_capacity (lite : Bool)
    (ParseStruct : List (String × OptionType) → String →
      Status × LRUCacheOptions)
    (value : String) (result : Option LRUCache)
    (h : strContainsChar value '=' = false) :
    Cache.CreateFromString lite ParseStruct value result =
      (Status.ok,
       some (NewLRUCache (defaultLRUCacheOptions (ParseSizeT value)))) := by
  simp [Cache.CreateFromString, NewLRUCacheWithCapacity, h]

/-- Witness for C7: the string `"1048576"` yields capacity 1048576 with the
default shard and pool settings. -/
theorem create_cache_plain_capacity_instance :
    strContainsChar "1048576" '=' = false ∧
    Cache.CreateFromString false (constLRUParse (defaultLRUCacheOptions 0))
        "1048576" none =
      (Status.ok,
       some (NewLRUCache
        { capacity := 1048576
          num_shard_bits := -1
          strict_capacity_limit := false
          high_pri_pool_ratio := 1 / 2
          low_pri_pool_ratio := 0 })) := by
  refine ⟨by decide, ?_⟩
  rw [create_cache_plain_capacity false (constLRUParse (defaultLRUCacheOptions 0))
    "1048576" none (by decide)]
  rfl

/-- Claim C8: exactly the strings beginning with the scheme token
`compressed_secondary_cache://` take the CompressedSecondaryCache path — the
remainder after the token is parsed against the secondary option set
(`comp_sec_cache_options_type_info`: capacity, num_shard_bits,
compression_type, compress_format_version, enable_custom_split_merge) and, on
success, the compressed variant is constructed from the parsed options —
while every other string is handed unchanged to the external plugin
registry. -/
theorem create_secondary_scheme_dispatch
    (ParseStruct : List (String × OptionType) → String →
      Status × CompressedSecondaryCacheOptions)
    (LoadSharedObject : String → Option SecondaryCache →
      Status × Option SecondaryCache)
    (value : String) (result : Option SecondaryCache) :
    (strStartsWith value compressedSecondaryCacheScheme = true →
      SecondaryCache.CreateFromString false ParseStruct LoadSharedObject
          value result =
        (let parsed := ParseStruct comp_sec_cache_options_type_info
            (strDrop value compressedSecondaryCacheScheme.length)
         if parsed.1 = Status.ok then
           (parsed.1, some (NewCompressedSecondaryCache parsed.2))
         else
           (parsed.1, result))) ∧
    (strStartsWith value compressedSecondaryCacheScheme = false →
      SecondaryCache.CreateFromString false ParseStruct LoadSharedObject
          value result = LoadSharedObject value result) := by
  constructor
  · intro h
    simp [SecondaryCache.CreateFromString, h]
  · intro h
    simp [SecondaryCache.CreateFromString, h]

/-- Witness for C8: a scheme-prefixed string builds the compressed variant
from the parsed options; a plain name goes to the plugin registry
unchanged. -/
theorem create_secondary_scheme_dispatch_instance :
    (strStartsWith "compressed_secondary_cache://capacity=1024"
        compressedSecondaryCacheScheme = true ∧
      SecondaryCache.CreateFromString false (constSecParse sampleSecOpts)
          namedPluginLoader "compressed_secondary_cache://capacity=1024" none =
        (Status.ok, some (SecondaryCache.compressed sampleSecOpts))) ∧
    (strStartsWith "my_plugin" compressedSecondaryCacheScheme = false ∧
      SecondaryCache.CreateFromString false (constSecParse sampleSecOpts)
          namedPluginLoader "my_plugin" none =
        (Status.ok, some (SecondaryCache.plugin "my_plugin"))) := by
  refine ⟨⟨by decide, ?_⟩, ⟨by decide, ?_⟩⟩
  · rw [(create_secondary_scheme_dispatch (constSecParse sampleSecOpts)
      namedPluginLoader "compressed_secondary_cache://capacity=1024" none).1
      (by decide)]
    rfl
  · rw [(create_secondary_scheme_dispatch (constSecParse sampleSecOpts)
      namedPluginLoader "my_plugin" none).2 (by decide)]
    rfl

/-- Claim C9: whenever construction fails (non-`ok` status), the output
parameter keeps the value it had on entry — no partial object is handed to
the caller — for both `Cache::CreateFromString` and
`SecondaryCache::CreateFromString`, provided the external plugin registry
honours the same output contract on its own failures. -/
theorem create_failure_assigns_no_object (lite : Bool)
    (ParseLRU : List (String × OptionType) → String →
      Status × LRUCacheOptions)
    (ParseSec : List (String × OptionType) → String →
      Status × CompressedSecondaryCacheOptions)
    (Load : String → Option SecondaryCache → Status × Option SecondaryCache)
    (hLoad : ∀ v r, (Load v r).1 ≠ Status.ok → (Load v r).2 = r)
    (valueC valueS : String)
    (rc : Option LRUCache) (rs : Option SecondaryCache) :
    ((Cache.CreateFromString lite ParseLRU valueC rc).1 ≠ Status.ok →
      (Cache.CreateFromString lite ParseLRU valueC rc).2 = rc) ∧
    ((SecondaryCache.CreateFromString lite ParseSec Load valueS rs).1
        ≠ Status.ok →
      (SecondaryCache.CreateFromString lite ParseSec Load valueS rs).2
        = rs) := by
  constructor
  · intro hne
    by_cases hc : strContainsChar valueC '=' = false
    · exact absurd (by simp [Cache.CreateFromString, hc]) hne
    · rw [Bool.not_eq_false] at hc
      by_cases hl : lite
      · simp [Cache.CreateFromString, hc, hl]
      · rcases hp : ParseLRU lru_cache_options_type_info valueC with ⟨st, opts⟩
        by_cases hst : st = Status.ok
        · refine absurd ?_ hne
          simp [Cache.CreateFromString, hc, hl, hp, hst]
        · simp [Cache.CreateFromString, hc, hl, hp, hst]
  · intro hne
    by_cases hs : strStartsWith valueS compressedSecondaryCacheScheme = true
    · by_cases hl : lite
      · simp [SecondaryCache.CreateFromString, hs, hl]
      · rcases hp : ParseSec comp_sec_cache_options_type_info
            (strDrop valueS compressedSecondaryCacheScheme.length)
          with ⟨st, opts⟩
        by_cases hst : st = Status.ok
        · refine absurd ?_ hne
          simp [SecondaryCache.CreateFromString, hs, hl, hp, hst]
        · simp [SecondaryCache.CreateFromString, hs, hl, hp, hst]
    · rw [Bool.not_eq_true] at hs
      have he : SecondaryCache.CreateFromString lite ParseSec Load valueS rs
          = Load valueS rs := by
        simp [SecondaryCache.CreateFromString, hs]
      rw [he] at hne ⊢
      exact hLoad valueS rs hne

/-- Witness for C9: a failing primary construction (LITE, struct string) and
a failing secondary construction (LITE, scheme string) both leave the output
parameter exactly as it was. -/
theorem create_failure_assigns_no_object_instance :
    ((Cache.CreateFromString true failLRUParse "capacity=2048"
        (some (NewLRUCache (defaultLRUCacheOptions 1)))).2
      = some (NewLRUCache (defaultLRUCacheOptions 1))) ∧
    ((SecondaryCache.CreateFromString true failSecParse failingPluginLoader
        "compressed_secondary_cache://x" (some (SecondaryCache.plugin "p"))).2
      = some (SecondaryCache.plugin "p")) := by
  have h := create_failure_assigns_no_object true failLRUParse failSecParse
    failingPluginLoader (fun v r _ => rfl) "capacity=2048"
    "compressed_secondary_cache://x"
    (some (NewLRUCache (defaultLRUCacheOptions 1)))
    (some (SecondaryCache.plugin "p"))
  exact ⟨h.1 (by decide), h.2 (by decide)⟩

/-- Claim C10: in the LITE build profile, a scheme-prefixed secondary-cache
request and a primary-cache request whose string contains `'='` both fail
with `NotSupported` (with the messages of the source), leaving the output
parameter untouched rather than falling back to a default-constructed
cache. -/
theorem lite_mode_not_supported
    (ParseLRU : List (String × OptionType) → String →
      Status × LRUCacheOptions)
    (ParseSec : List (String × OptionType) → String →
      Status × CompressedSecondaryCacheOptions)
    (Load : String → Option SecondaryCache → Status × Option SecondaryCache)
    (valueC valueS : String)
    (rc : Option LRUCache) (rs : Option SecondaryCache)
    (hs : strStartsWith valueS compressedSecondaryCacheScheme = true)
    (hc : strContainsChar valueC '=' = true) :
    SecondaryCache.CreateFromString true ParseSec Load valueS rs =
      (Status.notSupported
        "Cannot load compressed secondary cache in LITE mode "
        (strDrop valueS compressedSecondaryCacheScheme.length), rs) ∧
    Cache.CreateFromString true ParseLRU valueC rc =
      (Status.notSupported "Cannot load cache in LITE mode " valueC, rc) := by
  constructor
  · simp [SecondaryCache.CreateFromString, hs]
  · simp [Cache.CreateFromString, hc]

/-- Witness for C10 at concrete LITE-mode requests. -/
theorem lite_mode_not_supported_instance :
    SecondaryCache.CreateFromString true failSecParse namedPluginLoader
        "compressed_secondary_cache://capacity=1024" none =
      (Status.notSupported
        "Cannot load compressed secondary cache in LITE mode "
        "capacity=1024", none) ∧
    Cache.CreateFromString true failLRUParse "capacity=2048" none =
      (Status.notSupported "Cannot load cache in LITE mode "
        "capacity=2048", none) := by
  have h := lite_mode_not_supported failLRUParse failSecParse namedPluginLoader
    "capacity=2048" "compressed_secondary_cache://capacity=1024" none none
    (by decide) (by decide)
  refine ⟨?_, h.2⟩
  rw [h.1]
  rfl
